import Mathlib

/-!
# observe/datadog.go

A shallow embedding of the Datadog bootstrap of package `observe`
(`RegisterAndObserveDatadog`, `NewDatadogExporter`, `getDatadogAddr`,
`getDatadogOpts`) together with the few library values it touches.

The Go code is effectful: it calls collaborators that live outside the file
(`SkipObserve`, `IsDatadogEnabled`, `GetServiceInfo`, `os.Getenv`,
`datadog.NewExporter`, `trace.RegisterExporter`, `view.RegisterExporter`).
Their answers are read from an `Env`; every call that is made is appended to
the call log of a `World`, which is threaded through the functions.
-/

namespace Observe

/-! ## Go values -/

/-- Go `error` values that are not nil. `plain` stands for any error whose
type has no `Cause()` method (`errors.New`, `fmt.Errorf`, `net.OpError`, ...);
`withMessage` and `withStack` are the two wrapper types of
`github.com/pkg/errors` (the recorded stack itself is left out). -/
inductive GoError where
  | plain (text : String)
  | withMessage (cause : GoError) (msg : String)
  | withStack (err : GoError)
  deriving DecidableEq, Repr

/-- The `Error()` method: `withMessage` prints `msg + ": " + cause.Error()`,
`withStack` prints what the error it embeds prints. -/
def GoError.Error : GoError → String
  | .plain text => text
  | .withMessage cause msg => msg ++ ": " ++ cause.Error
  | .withStack err => err.Error

/-- Whether the error's type implements `interface { Cause() error }`. -/
def GoError.isCauser : GoError → Bool
  | .plain _ => false
  | .withMessage _ _ => true
  | .withStack _ => true

/-- The loop of `errors.Cause` on an error that is not nil: follow `Cause()`
until an error without that method is reached. -/
def GoError.rootCause : GoError → GoError
  | .plain text => .plain text
  | .withMessage cause _ => cause.rootCause
  | .withStack err => err.rootCause

/-- `errors.Wrap(err, message)`: nil for a nil `err`, otherwise
`&withStack{&withMessage{cause: err, msg: message}, callers()}`. -/
def errors.Wrap (err : Option GoError) (message : String) : Option GoError :=
  match err with
  | none => none
  | some e => some (.withStack (.withMessage e message))

/-- `errors.Cause(err)`. -/
def errors.Cause (err : Option GoError) : Option GoError :=
  err.map GoError.rootCause

/-- A Go function value `func(error)`. The package never calls it; it only
stores it and hands it on, so it is a reference that is nil or names a
function. -/
inductive ErrorCallback where
  | nil
  | fn (ref : Nat)
  deriving DecidableEq, Repr

/-- A value held in an `interface{}`. -/
inductive GoValue where
  | nil
  | str (s : String)
  | int (i : Int)
  | bool (b : Bool)
  deriving DecidableEq, Repr

/-- A Go `map[string]interface{}` as its entries, each key at most once. -/
abbrev GoMap := List (String × GoValue)

/-- The assignment `m[k] = v`: overwrite the entry of `k`, or add one. -/
def GoMap.set : GoMap → String → GoValue → GoMap
  | [], k, v => [(k, v)]
  | (k', v') :: rest, k, v =>
    if k' = k then (k, v) :: rest else (k', v') :: GoMap.set rest k v

/-- The lookup `m[k]` with its `ok` flag. -/
def GoMap.get : GoMap → String → Option GoValue
  | [], _ => none
  | (k', v') :: rest, k => if k' = k then some v' else GoMap.get rest k

/-- The keys of the map. -/
def GoMap.keys (m : GoMap) : List String := m.map Prod.fst

/-- The struct `datadog.Options` of the exporter library. -/
structure datadog.Options where
  Namespace : String
  Service : String
  TraceAddr : String
  StatsAddr : String
  OnError : ErrorCallback
  Tags : List String
  GlobalTags : GoMap
  DisableCountPerBuckets : Bool
  deriving DecidableEq, Repr

/-- The zero value of `datadog.Options`: what a composite literal leaves in
the fields it does not name. -/
def datadog.Options.zero : datadog.Options :=
  { Namespace := "", Service := "", TraceAddr := "", StatsAddr := "",
    OnError := ErrorCallback.nil, Tags := [], GlobalTags := [],
    DisableCountPerBuckets := false }

/-- A `datadog.Exporter` the library has built; the package sees no field of
it. -/
structure datadog.Exporter where
  id : Nat
  deriving DecidableEq, Repr

/-- A `*datadog.Exporter`: nil or a pointer to an exporter. -/
abbrev ExporterPtr := Option datadog.Exporter

/-- The exporters a registry of OpenCensus holds. -/
abbrev Registry := List ExporterPtr

/-! ## Collaborators and effects -/

/-- One function call made while the package runs. -/
inductive Call where
  | SkipObserve
  | NewDatadogExporter (onErr : ErrorCallback)
  | GetServiceInfo
  | getDatadogAddr
  | Getenv (key : String)
  | getDatadogOpts (service version datadogAddress : String) (onErr : ErrorCallback)
  | IsDatadogEnabled
  | datadogNewExporter (o : datadog.Options)
  | errorsWrap (err : Option GoError) (message : String)
  | traceRegisterExporter (e : ExporterPtr)
  | viewRegisterExporter (e : ExporterPtr)
  deriving DecidableEq, Repr

/-- What the collaborators outside the file answer during one run. -/
structure Env where
  SkipObserve : Bool
  IsDatadogEnabled : Bool
  GetServiceInfo : String × String × String
  environ : String → Option String
  NewExporter : datadog.Options → ExporterPtr × Option GoError
  traceRegister : ExporterPtr → Registry → Registry
  viewRegister : ExporterPtr → Registry → Registry

/-- The state the package acts on: the calls made so far and the two
registries. -/
structure World where
  calls : List Call
  traceExporters : Registry
  viewExporters : Registry
  deriving DecidableEq, Repr

/-- Append one call to the log. -/
def World.log (w : World) (c : Call) : World :=
  { w with calls := w.calls ++ [c] }

/-- `os.Getenv(key)`: the value of the variable, empty when it is unset. -/
def osGetenv (env : Env) (key : String) (w : World) : String × World :=
  ((env.environ key).getD "", w.log (.Getenv key))

/-- What the registration functions of OpenCensus do to their registry: the
exporter becomes a key of the set of exporters. -/
def opencensusRegister (e : ExporterPtr) (r : Registry) : Registry :=
  if e ∈ r then r else r ++ [e]

/-- `trace.RegisterExporter(e)`. -/
def trace.RegisterExporter (env : Env) (e : ExporterPtr) (w : World) : World :=
  { w.log (.traceRegisterExporter e) with
    traceExporters := env.traceRegister e w.traceExporters }

/-- `view.RegisterExporter(e)`. -/
def view.RegisterExporter (env : Env) (e : ExporterPtr) (w : World) : World :=
  { w.log (.viewRegisterExporter e) with
    viewExporters := env.viewRegister e w.viewExporters }

/-- `datadog.NewExporter(o)`. -/
def datadog.NewExporter (env : Env) (o : datadog.Options) (w : World) :
    (ExporterPtr × Option GoError) × World :=
  (env.NewExporter o, w.log (.datadogNewExporter o))

/-- The calls made between two states of the world: what the later log holds
beyond the earlier one. -/
def callsMade (before after : World) : List Call :=
  after.calls.drop before.calls.length

/-- A call that constructs an exporter: `NewDatadogExporter` or
`datadog.NewExporter`. -/
def Call.isConstruction : Call → Bool
  | .NewDatadogExporter _ => true
  | .datadogNewExporter _ => true
  | _ => false

/-- A call of the library constructor `datadog.NewExporter`. -/
def Call.isDatadogNewExporter : Call → Bool
  | .datadogNewExporter _ => true
  | _ => false

/-- A call of `trace.RegisterExporter` or `view.RegisterExporter`. -/
def Call.isRegistration : Call → Bool
  | .traceRegisterExporter _ => true
  | .viewRegisterExporter _ => true
  | _ => false

/-! ## The package -/

/-- `getDatadogAddr`, lines 44-46. -/
def getDatadogAddr (env : Env) (w : World) : String × World :=
  osGetenv env "DATADOG_ADDR" (w.log .getDatadogAddr)

/-- `getDatadogOpts`, lines 50-89. -/
def getDatadogOpts (env : Env) (service version datadogAddress : String)
    (onErr : ErrorCallback) (w : World) : Option datadog.Options × World :=
  let w := w.log (.getDatadogOpts service version datadogAddress onErr)
  let w := w.log .IsDatadogEnabled
  let canExport := env.IsDatadogEnabled
  if !canExport then
    (none, w)
  else
    (some { datadog.Options.zero with
        Namespace := "opencensus"
        Service := service
        TraceAddr := datadogAddress
        StatsAddr := datadogAddress
        OnError := onErr
        GlobalTags :=
          (GoMap.set [] "service" (.str service)).set "version" (.str version) },
      w)

/-- `NewDatadogExporter`, lines 33-42. -/
def NewDatadogExporter (env : Env) (onErr : ErrorCallback) (w : World) :
    (ExporterPtr × Option GoError) × World :=
  let w := w.log (.NewDatadogExporter onErr)
  let w := w.log .GetServiceInfo
  let service := env.GetServiceInfo.2.1
  let version := env.GetServiceInfo.2.2
  let addr := getDatadogAddr env w
  let opts := getDatadogOpts env service version addr.1 onErr addr.2
  match opts.1 with
  | none => ((none, none), opts.2)
  | some o => datadog.NewExporter env o opts.2

/-- `RegisterAndObserveDatadog`, lines 14-27. -/
def RegisterAndObserveDatadog (env : Env) (onError : ErrorCallback) (w : World) :
    Option GoError × World :=
  let w := w.log .SkipObserve
  if env.SkipObserve then
    (none, w)
  else
    let r := NewDatadogExporter env onError w
    let exp := r.1.1
    let err := r.1.2
    let w := r.2
    if err ≠ none then
      (errors.Wrap err "unable to initiate Datadog tracing exporter",
        w.log (.errorsWrap err "unable to initiate Datadog tracing exporter"))
    else
      let w := trace.RegisterExporter env exp w
      let w := view.RegisterExporter env exp w
      (none, w)

/-! ## Concrete inputs -/

/-- A world in which nothing has happened yet. -/
def emptyWorld : World := { calls := [], traceExporters := [], viewExporters := [] }

/-- An exporter the library may hand out. -/
def exporter7 : datadog.Exporter := { id := 7 }

/-- A process with `DATADOG_ADDR` unset and service identity
`("proj", "checkout", "1.2.3")`, in which the library constructor succeeds
with `exporter7` and the registries behave as those of OpenCensus. -/
def baseEnv (skip enabled : Bool) : Env :=
  { SkipObserve := skip
    IsDatadogEnabled := enabled
    GetServiceInfo := ("proj", "checkout", "1.2.3")
    environ := fun _ => none
    NewExporter := fun _ => (some exporter7, none)
    traceRegister := opencensusRegister
    viewRegister := opencensusRegister }

/-- The environment `baseEnv false true` with a library constructor that
fails with `e`. -/
def failingEnv (e : GoError) : Env :=
  { baseEnv false true with NewExporter := fun _ => (none, some e) }

/-- An error of `github.com/pkg/errors`: `errors.Wrap(errors.New("connection
refused"), "dial statsd")`. -/
def wrappedDialError : GoError :=
  .withStack (.withMessage (.plain "connection refused") "dial statsd")

/-! ## Lemmas on the log -/

theorem callsMade_append (w w' : World) (cs : List Call)
    (h : w'.calls = w.calls ++ cs) : callsMade w w' = cs := by
  simp [callsMade, h]

/-! ## Lemmas on the functions -/

theorem getDatadogOpts_snd (env : Env) (service version address : String)
    (onErr : ErrorCallback) (w : World) :
    (getDatadogOpts env service version address onErr w).2 =
      (w.log (.getDatadogOpts service version address onErr)).log .IsDatadogEnabled := by
  unfold getDatadogOpts
  cases env.IsDatadogEnabled <;> simp

theorem getDatadogOpts_fst_world (env : Env) (service version address : String)
    (onErr : ErrorCallback) (w w' : World) :
    (getDatadogOpts env service version address onErr w).1 =
      (getDatadogOpts env service version address onErr w').1 := by
  unfold getDatadogOpts
  cases env.IsDatadogEnabled <;> simp

theorem getDatadogOpts_disabled (env : Env) (service version address : String)
    (onErr : ErrorCallback) (w : World) (h : env.IsDatadogEnabled = false) :
    (getDatadogOpts env service version address onErr w).1 = none := by
  simp [getDatadogOpts, h]

theorem getDatadogAddr_eq (env : Env) (w : World) :
    getDatadogAddr env w =
      ((env.environ "DATADOG_ADDR").getD "",
        (w.log .getDatadogAddr).log (.Getenv "DATADOG_ADDR")) := rfl

theorem NewDatadogExporter_disabled (env : Env) (onErr : ErrorCallback) (w : World)
    (h : env.IsDatadogEnabled = false) :
    NewDatadogExporter env onErr w =
      ((none, none),
        { w with calls := w.calls ++
            [Call.NewDatadogExporter onErr, Call.GetServiceInfo, Call.getDatadogAddr,
              Call.Getenv "DATADOG_ADDR",
              Call.getDatadogOpts env.GetServiceInfo.2.1 env.GetServiceInfo.2.2
                ((env.environ "DATADOG_ADDR").getD "") onErr,
              Call.IsDatadogEnabled] }) := by
  simp [NewDatadogExporter, getDatadogAddr, osGetenv, getDatadogOpts, h, World.log]

theorem NewDatadogExporter_enabled (env : Env) (onErr : ErrorCallback) (w w' : World)
    (o : datadog.Options)
    (h : (getDatadogOpts env env.GetServiceInfo.2.1 env.GetServiceInfo.2.2
      ((env.environ "DATADOG_ADDR").getD "") onErr w').1 = some o) :
    NewDatadogExporter env onErr w =
      (env.NewExporter o,
        { w with calls := w.calls ++
            [Call.NewDatadogExporter onErr, Call.GetServiceInfo, Call.getDatadogAddr,
              Call.Getenv "DATADOG_ADDR",
              Call.getDatadogOpts env.GetServiceInfo.2.1 env.GetServiceInfo.2.2
                ((env.environ "DATADOG_ADDR").getD "") onErr,
              Call.IsDatadogEnabled, Call.datadogNewExporter o] }) := by
  have h2 := getDatadogOpts_fst_world env env.GetServiceInfo.2.1 env.GetServiceInfo.2.2
    ((env.environ "DATADOG_ADDR").getD "") onErr
    ((w.log (.NewDatadogExporter onErr)).log .GetServiceInfo |>.log .getDatadogAddr
      |>.log (.Getenv "DATADOG_ADDR")) w'
  rw [h] at h2
  unfold NewDatadogExporter
  simp only [getDatadogAddr_eq, getDatadogOpts_snd, h2]
  simp [datadog.NewExporter, World.log]

theorem RegisterAndObserveDatadog_noskip (env : Env) (onError : ErrorCallback)
    (w : World) (hskip : env.SkipObserve = false) :
    RegisterAndObserveDatadog env onError w =
      if (NewDatadogExporter env onError (w.log .SkipObserve)).1.2 ≠ none then
        (errors.Wrap (NewDatadogExporter env onError (w.log .SkipObserve)).1.2
            "unable to initiate Datadog tracing exporter",
          (NewDatadogExporter env onError (w.log .SkipObserve)).2.log
            (.errorsWrap (NewDatadogExporter env onError (w.log .SkipObserve)).1.2
              "unable to initiate Datadog tracing exporter"))
      else
        (none,
          view.RegisterExporter env
            (NewDatadogExporter env onError (w.log .SkipObserve)).1.1
            (trace.RegisterExporter env
              (NewDatadogExporter env onError (w.log .SkipObserve)).1.1
              (NewDatadogExporter env onError (w.log .SkipObserve)).2)) := by
  simp [RegisterAndObserveDatadog, hskip]

theorem RegisterAndObserveDatadog_disabled (env : Env) (onError : ErrorCallback)
    (w : World) (hskip : env.SkipObserve = false)
    (hdisabled : env.IsDatadogEnabled = false) :
    RegisterAndObserveDatadog env onError w =
      (none,
        { calls := w.calls ++
            [Call.SkipObserve, Call.NewDatadogExporter onError, Call.GetServiceInfo,
              Call.getDatadogAddr, Call.Getenv "DATADOG_ADDR",
              Call.getDatadogOpts env.GetServiceInfo.2.1 env.GetServiceInfo.2.2
                ((env.environ "DATADOG_ADDR").getD "") onError,
              Call.IsDatadogEnabled, Call.traceRegisterExporter none,
              Call.viewRegisterExporter none]
          traceExporters := env.traceRegister none w.traceExporters
          viewExporters := env.viewRegister none w.viewExporters }) := by
  rw [RegisterAndObserveDatadog_noskip env onError w hskip,
    NewDatadogExporter_disabled env onError _ hdisabled]
  simp [trace.RegisterExporter, view.RegisterExporter, World.log]

theorem RegisterAndObserveDatadog_failed (env : Env) (onError : ErrorCallback)
    (w w' : World) (o : datadog.Options) (e : GoError)
    (hskip : env.SkipObserve = false)
    (hopts : (getDatadogOpts env env.GetServiceInfo.2.1 env.GetServiceInfo.2.2
      ((env.environ "DATADOG_ADDR").getD "") onError w').1 = some o)
    (hfail : (env.NewExporter o).2 = some e) :
    RegisterAndObserveDatadog env onError w =
      (some (.withStack (.withMessage e "unable to initiate Datadog tracing exporter")),
        { w with calls := w.calls ++
            [Call.SkipObserve, Call.NewDatadogExporter onError, Call.GetServiceInfo,
              Call.getDatadogAddr, Call.Getenv "DATADOG_ADDR",
              Call.getDatadogOpts env.GetServiceInfo.2.1 env.GetServiceInfo.2.2
                ((env.environ "DATADOG_ADDR").getD "") onError,
              Call.IsDatadogEnabled, Call.datadogNewExporter o,
              Call.errorsWrap (some e) "unable to initiate Datadog tracing exporter"] }) := by
  rw [RegisterAndObserveDatadog_noskip env onError w hskip,
    NewDatadogExporter_enabled env onError _ w' o hopts]
  simp [hfail, errors.Wrap, World.log]

theorem RegisterAndObserveDatadog_built (env : Env) (onError : ErrorCallback)
    (w w' : World) (o : datadog.Options) (x : ExporterPtr)
    (hskip : env.SkipObserve = false)
    (hopts : (getDatadogOpts env env.GetServiceInfo.2.1 env.GetServiceInfo.2.2
      ((env.environ "DATADOG_ADDR").getD "") onError w').1 = some o)
    (hok : env.NewExporter o = (x, none)) :
    RegisterAndObserveDatadog env onError w =
      (none,
        { calls := w.calls ++
            [Call.SkipObserve, Call.NewDatadogExporter onError, Call.GetServiceInfo,
              Call.getDatadogAddr, Call.Getenv "DATADOG_ADDR",
              Call.getDatadogOpts env.GetServiceInfo.2.1 env.GetServiceInfo.2.2
                ((env.environ "DATADOG_ADDR").getD "") onError,
              Call.IsDatadogEnabled, Call.datadogNewExporter o,
              Call.traceRegisterExporter x, Call.viewRegisterExporter x]
          traceExporters := env.traceRegister x w.traceExporters
          viewExporters := env.viewRegister x w.viewExporters }) := by
  rw [RegisterAndObserveDatadog_noskip env onError w hskip,
    NewDatadogExporter_enabled env onError _ w' o hopts]
  simp [hok, trace.RegisterExporter, view.RegisterExporter, World.log]

theorem getDatadogOpts_enabled (env : Env) (service version address : String)
    (onErr : ErrorCallback) (w : World) (h : env.IsDatadogEnabled = true) :
    (getDatadogOpts env service version address onErr w).1 =
      some { datadog.Options.zero with
        Namespace := "opencensus", Service := service, TraceAddr := address,
        StatsAddr := address, OnError := onErr,
        GlobalTags :=
          (GoMap.set [] "service" (.str service)).set "version" (.str version) } := by
  simp [getDatadogOpts, h]

theorem options_literal (service version address : String) (onErr : ErrorCallback) :
    ({ datadog.Options.zero with
        Namespace := "opencensus", Service := service, TraceAddr := address,
        StatsAddr := address, OnError := onErr,
        GlobalTags :=
          (GoMap.set [] "service" (.str service)).set "version" (.str version) } :
      datadog.Options) =
      { Namespace := "opencensus", Service := service, TraceAddr := address,
        StatsAddr := address, OnError := onErr, Tags := [],
        GlobalTags := [("service", .str service), ("version", .str version)],
        DisableCountPerBuckets := false } := by
  have hne : ("service" : String) ≠ "version" := by decide
  simp [GoMap.set, datadog.Options.zero, hne]

theorem RegisterAndObserveDatadog_fst (env : Env) (onError : ErrorCallback) (w : World) :
    (RegisterAndObserveDatadog env onError w).1 =
      if env.SkipObserve then none
      else errors.Wrap (NewDatadogExporter env onError (w.log .SkipObserve)).1.2
        "unable to initiate Datadog tracing exporter" := by
  unfold RegisterAndObserveDatadog
  cases env.SkipObserve
  · cases h : (NewDatadogExporter env onError (w.log .SkipObserve)).1.2 <;>
      simp [h, errors.Wrap]
  · simp

/-! ## The claims -/

/-- C1: when `SkipObserve()` is true, `RegisterAndObserveDatadog` returns nil,
the only call it makes is `SkipObserve()` itself, so it makes no
exporter-construction call (`NewDatadogExporter`, `datadog.NewExporter`) and no
registration call (`trace.RegisterExporter`, `view.RegisterExporter`), and
both registries are left as they were. -/
theorem C1_skip_returns_nil_without_calls (env : Env) (onError : ErrorCallback)
    (w : World) (hskip : env.SkipObserve = true) :
    (RegisterAndObserveDatadog env onError w).1 = none ∧
    callsMade w (RegisterAndObserveDatadog env onError w).2 = [Call.SkipObserve] ∧
    (callsMade w (RegisterAndObserveDatadog env onError w).2).filter
      Call.isConstruction = [] ∧
    (callsMade w (RegisterAndObserveDatadog env onError w).2).filter
      Call.isRegistration = [] ∧
    (RegisterAndObserveDatadog env onError w).2.traceExporters = w.traceExporters ∧
    (RegisterAndObserveDatadog env onError w).2.viewExporters = w.viewExporters := by
  have hrun : RegisterAndObserveDatadog env onError w = (none, w.log .SkipObserve) := by
    simp [RegisterAndObserveDatadog, hskip]
  have hcalls : callsMade w (w.log .SkipObserve) = [Call.SkipObserve] :=
    callsMade_append w _ _ rfl
  rw [hrun, hcalls]
  simp [Call.isConstruction, Call.isRegistration, World.log]

/-- C1, at a concrete input: a skipping process, the callback `fn 1`, an
empty world. -/
theorem C1_skip_witness :
    (baseEnv true true).SkipObserve = true ∧
    (RegisterAndObserveDatadog (baseEnv true true) (.fn 1) emptyWorld).1 = none ∧
    callsMade emptyWorld
      (RegisterAndObserveDatadog (baseEnv true true) (.fn 1) emptyWorld).2 =
        [Call.SkipObserve] :=
  have h := C1_skip_returns_nil_without_calls (baseEnv true true) (.fn 1) emptyWorld rfl
  ⟨rfl, h.1, h.2.1⟩

/-- C5: `getDatadogOpts` returns nil if and only if `IsDatadogEnabled()` is
false, whatever the service, version, address and callback are (empty
strings and the nil callback included). -/
theorem C5_opts_absent_iff_disabled (env : Env) (service version address : String)
    (onErr : ErrorCallback) (w : World) :
    (getDatadogOpts env service version address onErr w).1 = none ↔
      env.IsDatadogEnabled = false := by
  unfold getDatadogOpts
  cases env.IsDatadogEnabled <;> simp

/-- C6: when `IsDatadogEnabled()` is true, `getDatadogOpts` returns options
with `Namespace = "opencensus"`, `Service = service`, both addresses equal to
`address` as given, `OnError = onErr`, a `GlobalTags` map whose keys are
exactly `service` and `version`, bound to the service and the version, and
the zero value in the two fields the literal does not name. -/
theorem C6_opts_fields_when_enabled (env : Env) (service version address : String)
    (onErr : ErrorCallback) (w : World) (henabled : env.IsDatadogEnabled = true) :
    ∃ o, (getDatadogOpts env service version address onErr w).1 = some o ∧
      o.Namespace = "opencensus" ∧ o.Service = service ∧
      o.TraceAddr = address ∧ o.StatsAddr = address ∧ o.OnError = onErr ∧
      (∀ k, o.GlobalTags.get k =
        if k = "service" then some (GoValue.str service)
        else if k = "version" then some (GoValue.str version) else none) ∧
      o.GlobalTags.keys = ["service", "version"] ∧
      o.Tags = datadog.Options.zero.Tags ∧ o.Tags = [] ∧
      o.DisableCountPerBuckets = datadog.Options.zero.DisableCountPerBuckets ∧
      o.DisableCountPerBuckets = false := by
  have hne : ("service" : String) ≠ "version" := by decide
  have hval := getDatadogOpts_enabled env service version address onErr w henabled
  refine ⟨_, hval, rfl, rfl, rfl, rfl, rfl, ?_, ?_, rfl, rfl, rfl, rfl⟩
  · intro k
    simp only [GoMap.set, if_neg hne, GoMap.get]
    by_cases h1 : k = "service"
    · subst h1; simp
    · by_cases h2 : k = "version"
      · subst h2; simp [Ne.symm hne]
      · simp [h1, h2, Ne.symm h1, Ne.symm h2]
  · simp [GoMap.set, GoMap.keys, hne]

/-- C6, at the input of the scenario: service `checkout`, version `1.2.3`,
the empty address. -/
theorem C6_checkout_witness :
    (baseEnv false true).IsDatadogEnabled = true ∧
    ∃ o, (getDatadogOpts (baseEnv false true) "checkout" "1.2.3" "" (.fn 1)
        emptyWorld).1 = some o ∧
      o.Namespace = "opencensus" ∧ o.TraceAddr = "" ∧ o.StatsAddr = "" ∧
      o.GlobalTags = [("service", .str "checkout"), ("version", .str "1.2.3")] := by
  refine ⟨rfl, ?_⟩
  obtain ⟨o, ho, h1, -, h3, h4, -⟩ :=
    C6_opts_fields_when_enabled (baseEnv false true) "checkout" "1.2.3" "" (.fn 1)
      emptyWorld rfl
  refine ⟨o, ho, h1, h3, h4, ?_⟩
  have hval : (getDatadogOpts (baseEnv false true) "checkout" "1.2.3" "" (.fn 1)
      emptyWorld).1 = some { datadog.Options.zero with
        Namespace := "opencensus", Service := "checkout", OnError := .fn 1,
        GlobalTags := [("service", .str "checkout"), ("version", .str "1.2.3")] } := by
    decide
  rw [hval] at ho
  cases ho
  rfl

/-- C2: what the code does when `SkipObserve()` is false and
`IsDatadogEnabled()` is false. `NewDatadogExporter` answers `(nil, nil)`,
`RegisterAndObserveDatadog` tests the error only, and so it returns nil after
calling `trace.RegisterExporter(nil)` and `view.RegisterExporter(nil)`: two
registration calls are made, and the nil exporter ends in both registries. -/
theorem C2_disabled_registers_nil_exporter :
    (baseEnv false false).SkipObserve = false ∧
    (baseEnv false false).IsDatadogEnabled = false ∧
    (NewDatadogExporter (baseEnv false false) (.fn 1) emptyWorld).1 = (none, none) ∧
    (RegisterAndObserveDatadog (baseEnv false false) (.fn 1) emptyWorld).1 = none ∧
    (callsMade emptyWorld
      (RegisterAndObserveDatadog (baseEnv false false) (.fn 1) emptyWorld).2).filter
        Call.isRegistration =
      [Call.traceRegisterExporter none, Call.viewRegisterExporter none] ∧
    (RegisterAndObserveDatadog (baseEnv false false) (.fn 1) emptyWorld).2.traceExporters
      = [none] ∧
    (RegisterAndObserveDatadog (baseEnv false false) (.fn 1) emptyWorld).2.viewExporters
      = [none] := by
  rw [RegisterAndObserveDatadog_disabled (baseEnv false false) (.fn 1) emptyWorld rfl rfl,
    NewDatadogExporter_disabled (baseEnv false false) (.fn 1) emptyWorld rfl]
  refine ⟨rfl, rfl, rfl, rfl, ?_, rfl, rfl⟩
  rw [callsMade_append emptyWorld _ _ rfl]
  rfl

/-- C3, as stated, fails: when `datadog.NewExporter` fails with an error that
is itself a wrapper of `pkg/errors`, `errors.Cause` of the returned error is
the root cause of that error and not the error itself. -/
theorem C3_cause_is_root_counterexample :
    (failingEnv wrappedDialError).SkipObserve = false ∧
    (failingEnv wrappedDialError).IsDatadogEnabled = true ∧
    (∀ o, (failingEnv wrappedDialError).NewExporter o = (none, some wrappedDialError)) ∧
    errors.Cause
      (RegisterAndObserveDatadog (failingEnv wrappedDialError) (.fn 1) emptyWorld).1 =
        some (.plain "connection refused") ∧
    errors.Cause
      (RegisterAndObserveDatadog (failingEnv wrappedDialError) (.fn 1) emptyWorld).1 ≠
        some wrappedDialError := by
  refine ⟨rfl, rfl, fun _ => rfl, ?_, ?_⟩ <;> decide

/-- C3, amended: when `SkipObserve()` is false, `IsDatadogEnabled()` is true
and `datadog.NewExporter`, called on the options `o` that `getDatadogOpts`
builds, fails with `e`, then `RegisterAndObserveDatadog` returns the non-nil
error that wraps `e` with the message; `errors.Cause` of it is
`errors.Cause(e)`, which is `e` itself whenever `e` has no `Cause()` method;
no registration call is made and both registries are left as they were. -/
theorem C3_construction_error_is_wrapped (env : Env) (onError : ErrorCallback)
    (w : World) (o : datadog.Options) (e : GoError)
    (hskip : env.SkipObserve = false) (henabled : env.IsDatadogEnabled = true)
    (hopts : (getDatadogOpts env env.GetServiceInfo.2.1 env.GetServiceInfo.2.2
      ((env.environ "DATADOG_ADDR").getD "") onError w).1 = some o)
    (hfail : (env.NewExporter o).2 = some e) :
    (RegisterAndObserveDatadog env onError w).1 ≠ none ∧
    (RegisterAndObserveDatadog env onError w).1 =
      some (.withStack (.withMessage e "unable to initiate Datadog tracing exporter")) ∧
    errors.Cause (RegisterAndObserveDatadog env onError w).1 = errors.Cause (some e) ∧
    (e.isCauser = false →
      errors.Cause (RegisterAndObserveDatadog env onError w).1 = some e) ∧
    (callsMade w (RegisterAndObserveDatadog env onError w).2).filter
      Call.isRegistration = [] ∧
    (RegisterAndObserveDatadog env onError w).2.traceExporters = w.traceExporters ∧
    (RegisterAndObserveDatadog env onError w).2.viewExporters = w.viewExporters := by
  have _ := henabled
  rw [RegisterAndObserveDatadog_failed env onError w w o e hskip hopts hfail]
  refine ⟨by simp, rfl, rfl, ?_, ?_, rfl, rfl⟩
  · intro hplain
    cases e with
    | plain text => rfl
    | withMessage cause msg => simp [GoError.isCauser] at hplain
    | withStack err => simp [GoError.isCauser] at hplain
  · rw [callsMade_append w _ _ rfl]
    rfl

/-- C3, amended, at a concrete input: the library constructor fails with the
plain error `boom`. -/
theorem C3_plain_error_witness :
    (failingEnv (.plain "boom")).SkipObserve = false ∧
    (failingEnv (.plain "boom")).IsDatadogEnabled = true ∧
    (∀ o, ((failingEnv (.plain "boom")).NewExporter o).2 = some (.plain "boom")) ∧
    errors.Cause
      (RegisterAndObserveDatadog (failingEnv (.plain "boom")) (.fn 1) emptyWorld).1 =
        some (.plain "boom") ∧
    (callsMade emptyWorld
      (RegisterAndObserveDatadog (failingEnv (.plain "boom")) (.fn 1) emptyWorld).2).filter
        Call.isRegistration = [] :=
  have h := C3_construction_error_is_wrapped (failingEnv (.plain "boom")) (.fn 1)
    emptyWorld
    { datadog.Options.zero with
      Namespace := "opencensus", Service := "checkout", OnError := .fn 1,
      GlobalTags := [("service", .str "checkout"), ("version", .str "1.2.3")] }
    (.plain "boom") rfl rfl (by decide) rfl
  ⟨rfl, rfl, fun _ => rfl, h.2.2.2.1 rfl, h.2.2.2.2.1⟩

/-- C4: when `SkipObserve()` is false, `IsDatadogEnabled()` is true and
`datadog.NewExporter`, called on the options `o` that `getDatadogOpts` builds,
succeeds with the exporter `x`, then `RegisterAndObserveDatadog` returns nil,
calls `datadog.NewExporter` once (on `o`) and no other constructor of the
library, calls `trace.RegisterExporter(x)` once and `view.RegisterExporter(x)`
once and makes no other registration call; each registry is what its
registration function makes of it on `x`, so with the registration of
OpenCensus both registries hold `x`. -/
theorem C4_exporter_registered_once_in_both (env : Env) (onError : ErrorCallback)
    (w : World) (o : datadog.Options) (x : ExporterPtr)
    (hskip : env.SkipObserve = false) (henabled : env.IsDatadogEnabled = true)
    (hopts : (getDatadogOpts env env.GetServiceInfo.2.1 env.GetServiceInfo.2.2
      ((env.environ "DATADOG_ADDR").getD "") onError w).1 = some o)
    (hok : env.NewExporter o = (x, none)) :
    (RegisterAndObserveDatadog env onError w).1 = none ∧
    callsMade w (RegisterAndObserveDatadog env onError w).2 =
      [Call.SkipObserve, Call.NewDatadogExporter onError, Call.GetServiceInfo,
        Call.getDatadogAddr, Call.Getenv "DATADOG_ADDR",
        Call.getDatadogOpts env.GetServiceInfo.2.1 env.GetServiceInfo.2.2
          ((env.environ "DATADOG_ADDR").getD "") onError,
        Call.IsDatadogEnabled, Call.datadogNewExporter o,
        Call.traceRegisterExporter x, Call.viewRegisterExporter x] ∧
    (callsMade w (RegisterAndObserveDatadog env onError w).2).filter
      Call.isRegistration =
        [Call.traceRegisterExporter x, Call.viewRegisterExporter x] ∧
    (callsMade w (RegisterAndObserveDatadog env onError w).2).filter
      Call.isDatadogNewExporter = [Call.datadogNewExporter o] ∧
    (RegisterAndObserveDatadog env onError w).2.traceExporters =
      env.traceRegister x w.traceExporters ∧
    (RegisterAndObserveDatadog env onError w).2.viewExporters =
      env.viewRegister x w.viewExporters ∧
    (env.traceRegister = opencensusRegister →
      x ∈ (RegisterAndObserveDatadog env onError w).2.traceExporters) ∧
    (env.viewRegister = opencensusRegister →
      x ∈ (RegisterAndObserveDatadog env onError w).2.viewExporters) := by
  have _ := henabled
  have hmem : ∀ r : Registry, x ∈ opencensusRegister x r := by
    intro r
    unfold opencensusRegister
    by_cases h : x ∈ r <;> simp [h]
  rw [RegisterAndObserveDatadog_built env onError w w o x hskip hopts hok]
  rw [callsMade_append w _ _ rfl]
  refine ⟨rfl, rfl, rfl, rfl, rfl, rfl, ?_, ?_⟩
  · intro h
    simp only [h]
    exact hmem _
  · intro h
    simp only [h]
    exact hmem _

/-- C4, at a concrete input: the library constructor succeeds with
`exporter7`, and both registries, empty before, hold exactly it after. -/
theorem C4_exporter7_witness :
    (baseEnv false true).SkipObserve = false ∧
    (baseEnv false true).IsDatadogEnabled = true ∧
    (∀ o, (baseEnv false true).NewExporter o = (some exporter7, none)) ∧
    (RegisterAndObserveDatadog (baseEnv false true) (.fn 1) emptyWorld).1 = none ∧
    (callsMade emptyWorld
      (RegisterAndObserveDatadog (baseEnv false true) (.fn 1) emptyWorld).2).filter
        Call.isRegistration =
      [Call.traceRegisterExporter (some exporter7),
        Call.viewRegisterExporter (some exporter7)] ∧
    (RegisterAndObserveDatadog (baseEnv false true) (.fn 1) emptyWorld).2.traceExporters =
      [some exporter7] ∧
    (RegisterAndObserveDatadog (baseEnv false true) (.fn 1) emptyWorld).2.viewExporters =
      [some exporter7] :=
  have h := C4_exporter_registered_once_in_both (baseEnv false true) (.fn 1) emptyWorld
    { datadog.Options.zero with
      Namespace := "opencensus", Service := "checkout", OnError := .fn 1,
      GlobalTags := [("service", .str "checkout"), ("version", .str "1.2.3")] }
    (some exporter7) rfl rfl (by decide) rfl
  ⟨rfl, rfl, fun _ => rfl, h.1, h.2.2.1, h.2.2.2.2.1, h.2.2.2.2.2.1⟩

/-- C7: when `IsDatadogEnabled()` is false, `NewDatadogExporter` returns the
nil exporter together with the nil error, whatever `GetServiceInfo()` and the
environment variable `DATADOG_ADDR` hold, and `datadog.NewExporter` is not
called. -/
theorem C7_disabled_exporter_is_nil_nil (env : Env) (onErr : ErrorCallback)
    (w : World) (hdisabled : env.IsDatadogEnabled = false) :
    (NewDatadogExporter env onErr w).1 = (none, none) ∧
    (NewDatadogExporter env onErr w).1.2 = none ∧
    (callsMade w (NewDatadogExporter env onErr w).2).filter
      Call.isDatadogNewExporter = [] ∧
    (NewDatadogExporter env onErr w).2.traceExporters = w.traceExporters ∧
    (NewDatadogExporter env onErr w).2.viewExporters = w.viewExporters := by
  rw [NewDatadogExporter_disabled env onErr w hdisabled]
  rw [callsMade_append w _ _ rfl]
  exact ⟨rfl, rfl, rfl, rfl, rfl⟩

/-- C7, at a concrete input: a disabled process with `DATADOG_ADDR` unset. -/
theorem C7_disabled_witness :
    (baseEnv false false).IsDatadogEnabled = false ∧
    (NewDatadogExporter (baseEnv false false) (.fn 1) emptyWorld).1 = (none, none) :=
  ⟨rfl, (C7_disabled_exporter_is_nil_nil (baseEnv false false) (.fn 1) emptyWorld rfl).1⟩

/-- C8: when `IsDatadogEnabled()` is true, `NewDatadogExporter` returns the
pair that `datadog.NewExporter` answers on the options `o` which
`getDatadogOpts` builds from the service and version of `GetServiceInfo()`,
the value of `DATADOG_ADDR` (in both addresses) and `onErr`; the library
constructor is called once, on `o`; an error it answers is returned as it is;
and the project component of `GetServiceInfo()` changes nothing. -/
theorem C8_enabled_returns_library_pair (env : Env) (onErr : ErrorCallback)
    (w : World) (henabled : env.IsDatadogEnabled = true) :
    ∃ o, (getDatadogOpts env env.GetServiceInfo.2.1 env.GetServiceInfo.2.2
        (getDatadogAddr env w).1 onErr w).1 = some o ∧
      (NewDatadogExporter env onErr w).1 = env.NewExporter o ∧
      (callsMade w (NewDatadogExporter env onErr w).2).filter
        Call.isDatadogNewExporter = [Call.datadogNewExporter o] ∧
      o.Service = env.GetServiceInfo.2.1 ∧
      o.TraceAddr = (env.environ "DATADOG_ADDR").getD "" ∧
      o.StatsAddr = (env.environ "DATADOG_ADDR").getD "" ∧
      o.OnError = onErr ∧
      (∀ e, (env.NewExporter o).2 = some e →
        (NewDatadogExporter env onErr w).1.2 = some e) ∧
      (∀ project, NewDatadogExporter
          { env with GetServiceInfo := (project, env.GetServiceInfo.2) } onErr w =
        NewDatadogExporter env onErr w) := by
  have hopts := getDatadogOpts_enabled env env.GetServiceInfo.2.1 env.GetServiceInfo.2.2
    ((env.environ "DATADOG_ADDR").getD "") onErr w henabled
  refine ⟨_, hopts, ?_, ?_, rfl, rfl, rfl, rfl, ?_, fun _ => rfl⟩
  · rw [NewDatadogExporter_enabled env onErr w w _ hopts]
  · rw [NewDatadogExporter_enabled env onErr w w _ hopts, callsMade_append w _ _ rfl]
    rfl
  · intro e he
    rw [NewDatadogExporter_enabled env onErr w w _ hopts]
    exact he

/-- C8, at a concrete input: the library constructor fails with the plain
error `boom`, and `NewDatadogExporter` returns that very error. -/
theorem C8_error_as_is_witness :
    (failingEnv (.plain "boom")).IsDatadogEnabled = true ∧
    (NewDatadogExporter (failingEnv (.plain "boom")) (.fn 1) emptyWorld).1 =
      (none, some (.plain "boom")) := by
  refine ⟨rfl, ?_⟩
  obtain ⟨o, -, hres, -⟩ :=
    C8_enabled_returns_library_pair (failingEnv (.plain "boom")) (.fn 1) emptyWorld rfl
  rw [hres]
  rfl

/-- C9, as stated, fails: the text of the returned error starts with
`unable to initiate Datadog tracing exporter`, not with
`unable to initiate tracing exporter`. -/
theorem C9_message_text_counterexample :
    (RegisterAndObserveDatadog (failingEnv (.plain "boom")) (.fn 1) emptyWorld).1.map
        GoError.Error =
      some "unable to initiate Datadog tracing exporter: boom" ∧
    (RegisterAndObserveDatadog (failingEnv (.plain "boom")) (.fn 1) emptyWorld).1.map
        GoError.Error ≠
      some ("unable to initiate tracing exporter: " ++ GoError.Error (.plain "boom")) := by
  constructor <;> decide

/-- C9, amended: when `SkipObserve()` is false and `datadog.NewExporter`,
called on the options `o` that `getDatadogOpts` builds, fails with `e`, the
`Error()` text of the error `RegisterAndObserveDatadog` returns is
`unable to initiate Datadog tracing exporter: ` followed by `e.Error()`. -/
theorem C9_error_text_has_datadog_context (env : Env) (onError : ErrorCallback)
    (w : World) (o : datadog.Options) (e : GoError)
    (hskip : env.SkipObserve = false)
    (hopts : (getDatadogOpts env env.GetServiceInfo.2.1 env.GetServiceInfo.2.2
      ((env.environ "DATADOG_ADDR").getD "") onError w).1 = some o)
    (hfail : (env.NewExporter o).2 = some e) :
    (RegisterAndObserveDatadog env onError w).1.map GoError.Error =
      some ("unable to initiate Datadog tracing exporter: " ++ e.Error) := by
  rw [RegisterAndObserveDatadog_failed env onError w w o e hskip hopts hfail]
  have hlit : "unable to initiate Datadog tracing exporter" ++ ": " =
      "unable to initiate Datadog tracing exporter: " := by decide
  simp only [Option.map, GoError.Error, hlit]

/-- C9, amended, at a concrete input: the library constructor fails with
`errors.Wrap(errors.New("connection refused"), "dial statsd")`. -/
theorem C9_wrapped_dial_witness :
    (failingEnv wrappedDialError).SkipObserve = false ∧
    (∀ o, ((failingEnv wrappedDialError).NewExporter o).2 = some wrappedDialError) ∧
    (RegisterAndObserveDatadog (failingEnv wrappedDialError) (.fn 2) emptyWorld).1.map
        GoError.Error =
      some "unable to initiate Datadog tracing exporter: dial statsd: connection refused" := by
  refine ⟨rfl, fun _ => rfl, ?_⟩
  rw [C9_error_text_has_datadog_context (failingEnv wrappedDialError) (.fn 2) emptyWorld
    { datadog.Options.zero with
      Namespace := "opencensus", Service := "checkout", OnError := .fn 2,
      GlobalTags := [("service", .str "checkout"), ("version", .str "1.2.3")] }
    wrappedDialError rfl (by decide) rfl]
  decide

/-- C10: `RegisterAndObserveDatadog` returns a non-nil error if and only if
`SkipObserve()` is false, `IsDatadogEnabled()` is true and
`datadog.NewExporter` answers a non-nil error on the options written out
below (namespace `opencensus`, the service, `DATADOG_ADDR` in both addresses,
the callback, the two tags). When skipped or disabled it returns nil; when
the constructor answers no error it returns nil; when the constructor answers
the error `e` it returns `e` wrapped with the message. The returned error does
not depend on what the two registration functions do. -/
theorem C10_error_iff_construction_failed (env : Env) (onError : ErrorCallback)
    (w : World) :
    ((RegisterAndObserveDatadog env onError w).1 ≠ none ↔
      (env.SkipObserve = false ∧ env.IsDatadogEnabled = true ∧
        (env.NewExporter
          { Namespace := "opencensus"
            Service := env.GetServiceInfo.2.1
            TraceAddr := (env.environ "DATADOG_ADDR").getD ""
            StatsAddr := (env.environ "DATADOG_ADDR").getD ""
            OnError := onError
            Tags := []
            GlobalTags := [("service", .str env.GetServiceInfo.2.1),
              ("version", .str env.GetServiceInfo.2.2)]
            DisableCountPerBuckets := false }).2 ≠ none)) ∧
    (env.SkipObserve = true → (RegisterAndObserveDatadog env onError w).1 = none) ∧
    (env.IsDatadogEnabled = false →
      (RegisterAndObserveDatadog env onError w).1 = none) ∧
    (env.SkipObserve = false → env.IsDatadogEnabled = true →
      (RegisterAndObserveDatadog env onError w).1 =
        (match (env.NewExporter
          { Namespace := "opencensus"
            Service := env.GetServiceInfo.2.1
            TraceAddr := (env.environ "DATADOG_ADDR").getD ""
            StatsAddr := (env.environ "DATADOG_ADDR").getD ""
            OnError := onError
            Tags := []
            GlobalTags := [("service", .str env.GetServiceInfo.2.1),
              ("version", .str env.GetServiceInfo.2.2)]
            DisableCountPerBuckets := false }).2 with
        | none => none
        | some e =>
          some (.withStack
            (.withMessage e "unable to initiate Datadog tracing exporter")))) ∧
    (∀ (traceRegister viewRegister : ExporterPtr → Registry → Registry),
      (RegisterAndObserveDatadog
        { env with traceRegister := traceRegister, viewRegister := viewRegister }
        onError w).1 = (RegisterAndObserveDatadog env onError w).1) := by
  have hrun : env.SkipObserve = false → env.IsDatadogEnabled = true →
      (RegisterAndObserveDatadog env onError w).1 =
        errors.Wrap (env.NewExporter
          { Namespace := "opencensus"
            Service := env.GetServiceInfo.2.1
            TraceAddr := (env.environ "DATADOG_ADDR").getD ""
            StatsAddr := (env.environ "DATADOG_ADDR").getD ""
            OnError := onError
            Tags := []
            GlobalTags := [("service", .str env.GetServiceInfo.2.1),
              ("version", .str env.GetServiceInfo.2.2)]
            DisableCountPerBuckets := false }).2
          "unable to initiate Datadog tracing exporter" := by
    intro hskip henabled
    have hopts := getDatadogOpts_enabled env env.GetServiceInfo.2.1
      env.GetServiceInfo.2.2 ((env.environ "DATADOG_ADDR").getD "") onError w henabled
    rw [options_literal] at hopts
    rw [RegisterAndObserveDatadog_fst, NewDatadogExporter_enabled env onError _ w _ hopts]
    simp [hskip]
  have hskipped : env.SkipObserve = true →
      (RegisterAndObserveDatadog env onError w).1 = none := by
    intro hskip
    rw [RegisterAndObserveDatadog_fst]
    simp [hskip]
  have hoff : env.IsDatadogEnabled = false →
      (RegisterAndObserveDatadog env onError w).1 = none := by
    intro hdisabled
    rw [RegisterAndObserveDatadog_fst, NewDatadogExporter_disabled env onError _ hdisabled]
    cases env.SkipObserve <;> simp [errors.Wrap]
  refine ⟨?_, hskipped, hoff, ?_, fun _ _ => ?_⟩
  · cases hskip : env.SkipObserve
    · cases henabled : env.IsDatadogEnabled
      · simp [hoff henabled]
      · rw [hrun hskip henabled]
        cases herr : (env.NewExporter _).2 <;> simp [errors.Wrap]
    · simp [hskipped hskip]
  · intro hskip henabled
    rw [hrun hskip henabled]
    cases herr : (env.NewExporter _).2 <;> simp [errors.Wrap]
  · rw [RegisterAndObserveDatadog_fst, RegisterAndObserveDatadog_fst]
    rfl

/-- C10, at concrete inputs: with a library constructor that fails with
`boom` the returned error is not nil and wraps `boom`; with one that succeeds,
and in a disabled process, nil is returned. -/
theorem C10_failed_and_built_witness :
    (RegisterAndObserveDatadog (failingEnv (.plain "boom")) (.fn 1) emptyWorld).1 ≠ none ∧
    (RegisterAndObserveDatadog (failingEnv (.plain "boom")) (.fn 1) emptyWorld).1 =
      some (.withStack
        (.withMessage (.plain "boom") "unable to initiate Datadog tracing exporter")) ∧
    (RegisterAndObserveDatadog (baseEnv false true) (.fn 1) emptyWorld).1 = none ∧
    (RegisterAndObserveDatadog (baseEnv false false) (.fn 1) emptyWorld).1 = none :=
  ⟨(C10_error_iff_construction_failed (failingEnv (.plain "boom")) (.fn 1)
      emptyWorld).1.mpr ⟨rfl, rfl, by decide⟩,
    (C10_error_iff_construction_failed (failingEnv (.plain "boom")) (.fn 1)
      emptyWorld).2.2.2.1 rfl rfl,
    (C10_error_iff_construction_failed (baseEnv false true) (.fn 1)
      emptyWorld).2.2.2.1 rfl rfl,
    (C10_error_iff_construction_failed (baseEnv false false) (.fn 1)
      emptyWorld).2.2.1 rfl⟩

end Observe
